import Mathlib

/-!
Verification of the repository/service CRUD core of `dependency_injection`.

The data model (`models.User`), the repository contract
(`repository.UserRepository`) and the service implementation
(`service.DefaultUserService`) are embedded from the Go sources.
The concrete GORM-backed repository adapter is not part of the sources;
it is modelled from the specification (§ 3 and § 4.1).
-/

/-- Embeds `models.User` (src/models/user.go): identifier, name, email.
The `gorm` tags (primary key, unique index on email) are schema
declarations enforced by the store model below, not by this record. -/
structure User where
  id : Nat
  name : String
  email : String
deriving DecidableEq, Repr

/-- The error taxonomy of the spec (§ 7): `NotFoundError`, `ConflictError`
and an opaque `StorageError` for any other persistence failure. -/
inductive RepoError where
  | notFound
  | conflict
  | storage
deriving DecidableEq, Repr

/-- Embeds the `repository.UserRepository` interface
(src/repository/interfaces.go), made explicit over a store state `σ`.
Each Go method `(recv, args) → (result, error)` becomes a function from
the state and the arguments to the Go result paired with the state after
the call.  `create` additionally returns the record with the
store-assigned identifier filled in (in Go the adapter writes it back
through the `*models.User` pointer). -/
structure UserRepository (σ : Type) where
  create : σ → User → Except RepoError User × σ
  getByID : σ → Nat → Except RepoError User × σ
  update : σ → User → Except RepoError Unit × σ
  delete : σ → Nat → Except RepoError Unit × σ

/-- Embeds `service.DefaultUserService` (src/service/interfaces.go):
a record holding exactly one injected repository. -/
structure DefaultUserService (σ : Type) where
  repo : UserRepository σ

/-- Embeds `service.NewUserService`. -/
def NewUserService {σ : Type} (repo : UserRepository σ) : DefaultUserService σ :=
  { repo := repo }

namespace DefaultUserService

variable {σ : Type}

/-- Embeds `DefaultUserService.CreateUser`: builds a `User` from the two
fields (identifier left at its zero value) and returns the result of
`repo.Create` on it.  Go discards the filled-in record, so the service
result carries no value. -/
def CreateUser (s : DefaultUserService σ) (st : σ) (name email : String) :
    Except RepoError Unit × σ :=
  let user : User := { id := 0, name := name, email := email }
  let r := s.repo.create st user
  (r.1.map fun _ => (), r.2)

/-- Embeds `DefaultUserService.GetUser`: returns `repo.GetByID` unchanged. -/
def GetUser (s : DefaultUserService σ) (st : σ) (id : Nat) :
    Except RepoError User × σ :=
  s.repo.getByID st id

/-- Embeds `DefaultUserService.UpdateUser`: reads the record through
`repo.GetByID`; on error returns that error; otherwise overwrites `name`
and `email` on the copy that was read and returns the result of
`repo.Update` on it. -/
def UpdateUser (s : DefaultUserService σ) (st : σ) (id : Nat)
    (name email : String) : Except RepoError Unit × σ :=
  match s.repo.getByID st id with
  | (.error e, st1) => (.error e, st1)
  | (.ok user, st1) =>
      s.repo.update st1 { user with name := name, email := email }

/-- Embeds `DefaultUserService.DeleteUser`: returns `repo.Delete` unchanged. -/
def DeleteUser (s : DefaultUserService σ) (st : σ) (id : Nat) :
    Except RepoError Unit × σ :=
  s.repo.delete st id

end DefaultUserService

/-- One repository call, as the service issues it: the operation together
with the argument the service passed. -/
inductive RepoCall where
  | createCall (u : User)
  | getCall (id : Nat)
  | updateCall (u : User)
  | deleteCall (id : Nat)
deriving DecidableEq, Repr

namespace DefaultUserService

variable {σ : Type}

/-- `CreateUser` instrumented with the list of repository calls it makes,
in order.  The computation is the same as `CreateUser`. -/
def CreateUserCalls (s : DefaultUserService σ) (st : σ) (name email : String) :
    (Except RepoError Unit × σ) × List RepoCall :=
  let user : User := { id := 0, name := name, email := email }
  let r := s.repo.create st user
  ((r.1.map fun _ => (), r.2), [RepoCall.createCall user])

/-- `UpdateUser` instrumented with the list of repository calls it makes,
in order.  The computation is the same as `UpdateUser`. -/
def UpdateUserCalls (s : DefaultUserService σ) (st : σ) (id : Nat)
    (name email : String) : (Except RepoError Unit × σ) × List RepoCall :=
  match s.repo.getByID st id with
  | (.error e, st1) => ((.error e, st1), [RepoCall.getCall id])
  | (.ok user, st1) =>
      let u : User := { user with name := name, email := email }
      (s.repo.update st1 u, [RepoCall.getCall id, RepoCall.updateCall u])

theorem CreateUserCalls_fst (s : DefaultUserService σ) (st : σ)
    (name email : String) :
    (s.CreateUserCalls st name email).1 = s.CreateUser st name email := rfl

theorem UpdateUserCalls_fst (s : DefaultUserService σ) (st : σ) (id : Nat)
    (name email : String) :
    (s.UpdateUserCalls st id name email).1 = s.UpdateUser st id name email := by
  unfold UpdateUserCalls UpdateUser
  cases h : s.repo.getByID st id with
  | mk r st1 => cases r <;> simp

end DefaultUserService

/-- Modelled from the spec: the concrete store behind the GORM repository
adapter (`repository.NewGormUserRepository` and `config.InitDB` are not
among the sources).  Records live in a list; `nextID` is the next
auto-assigned identifier (§ 3: `id` is unique and store-assigned). -/
structure Store where
  nextID : Nat
  users : List User
deriving DecidableEq, Repr

/-- The empty store, identifiers starting at 1 (§ 8 example: the first
create is assigned `id = 1`). -/
def Store.empty : Store := { nextID := 1, users := [] }

/-- Store well-formedness: every stored identifier was assigned earlier,
hence is below `nextID`. -/
def Store.WF (s : Store) : Prop := ∀ u ∈ s.users, u.id < s.nextID

instance (s : Store) : Decidable s.WF := by
  unfold Store.WF; infer_instance

/-- Modelled from the spec (§ 4.1 `Create`): fails with `ConflictError`
when the email already exists (the unique index); otherwise assigns the
next identifier, appends the record and returns it with `id` filled. -/
def Store.create (s : Store) (u : User) : Except RepoError User × Store :=
  if s.users.any (fun v => v.email == u.email) then
    (.error .conflict, s)
  else
    let assigned : User := { u with id := s.nextID }
    (.ok assigned, { nextID := s.nextID + 1, users := s.users ++ [assigned] })

/-- Modelled from the spec (§ 4.1 `GetByID`): returns the matching record,
or `NotFoundError` when no record has that identifier. -/
def Store.getByID (s : Store) (id : Nat) : Except RepoError User × Store :=
  match s.users.find? (fun v => v.id == id) with
  | some u => (.ok u, s)
  | none => (.error .notFound, s)

/-- Modelled from the spec (§ 4.1 `Update`): `NotFoundError` when `u.id`
does not exist; `ConflictError` when the new email collides with a
different existing record; otherwise overwrites the record. -/
def Store.update (s : Store) (u : User) : Except RepoError Unit × Store :=
  if s.users.any (fun v => v.id == u.id) then
    if s.users.any (fun v => v.email == u.email && v.id != u.id) then
      (.error .conflict, s)
    else
      (.ok (), { s with users := s.users.map (fun v => if v.id == u.id then u else v) })
  else
    (.error .notFound, s)

/-- Modelled from the spec (§ 4.1 `Delete`): removes the record, or
`NotFoundError` when the identifier is absent. -/
def Store.delete (s : Store) (id : Nat) : Except RepoError Unit × Store :=
  if s.users.any (fun v => v.id == id) then
    (.ok (), { s with users := s.users.filter (fun v => v.id != id) })
  else
    (.error .notFound, s)

/-- Modelled from the spec: the GORM repository adapter
(`repository.NewGormUserRepository`), packaged as a `UserRepository`
over the modelled store. -/
def GormUserRepository : UserRepository Store :=
  { create := Store.create
    getByID := Store.getByID
    update := Store.update
    delete := Store.delete }

/-- The service wired over the modelled store, as the composition root
(src/main.go) builds it. -/
def gormService : DefaultUserService Store := NewUserService GormUserRepository

section Claims

/-- Claim C2: creating a user whose email already belongs to a stored user
returns `ConflictError` and leaves the store unchanged: no record is
created. -/
theorem createUser_duplicate_email_conflict (s : Store) (name email : String)
    (h : ∃ v ∈ s.users, v.email = email) :
    gormService.CreateUser s name email = (.error .conflict, s) := by
  obtain ⟨v, hv, hve⟩ := h
  have hany : s.users.any (fun v => v.email == email) = true :=
    List.any_eq_true.mpr ⟨v, hv, by simp [hve]⟩
  simp [gormService, NewUserService, GormUserRepository,
    DefaultUserService.CreateUser, Store.create, hany, Except.map]

theorem createUser_duplicate_email_conflict_witness :
    gormService.CreateUser { nextID := 2, users := [{ id := 1, name := "a", email := "a@x" }] }
      "b" "a@x" = (.error .conflict, { nextID := 2, users := [{ id := 1, name := "a", email := "a@x" }] }) :=
  createUser_duplicate_email_conflict _ "b" "a@x"
    ⟨{ id := 1, name := "a", email := "a@x" }, by simp, rfl⟩

/-- Claim C3: `GetUser`, `UpdateUser` and `DeleteUser` on an identifier
absent from the store each return `NotFoundError` and leave the store
unchanged. -/
theorem absent_id_notFound (s : Store) (id : Nat) (name email : String)
    (h : ∀ v ∈ s.users, v.id ≠ id) :
    gormService.GetUser s id = (.error .notFound, s) ∧
    gormService.UpdateUser s id name email = (.error .notFound, s) ∧
    gormService.DeleteUser s id = (.error .notFound, s) := by
  have hfind : s.users.find? (fun v => v.id == id) = none :=
    List.find?_eq_none.mpr (fun x hx => by simp [h x hx])
  have hany : s.users.any (fun v => v.id == id) = false :=
    List.any_eq_false.mpr (fun x hx => by simp [h x hx])
  refine ⟨?_, ?_, ?_⟩
  · simp [gormService, NewUserService, GormUserRepository,
      DefaultUserService.GetUser, Store.getByID, hfind]
  · simp [gormService, NewUserService, GormUserRepository,
      DefaultUserService.UpdateUser, Store.getByID, hfind]
  · simp [gormService, NewUserService, GormUserRepository,
      DefaultUserService.DeleteUser, Store.delete, hany]

theorem absent_id_notFound_witness :
    gormService.GetUser Store.empty 7 = (.error .notFound, Store.empty) ∧
    gormService.UpdateUser Store.empty 7 "n" "e" = (.error .notFound, Store.empty) ∧
    gormService.DeleteUser Store.empty 7 = (.error .notFound, Store.empty) :=
  absent_id_notFound Store.empty 7 "n" "e" (by simp [Store.empty])

/-- Claim C5: deleting an existing identifier succeeds; afterwards
`GetUser` on it returns `NotFoundError`, and a second `DeleteUser` on it
returns `NotFoundError`. -/
theorem deleteUser_then_gone (s : Store) (id : Nat)
    (h : ∃ v ∈ s.users, v.id = id) :
    ∃ s1 : Store,
      gormService.DeleteUser s id = (.ok (), s1) ∧
      gormService.GetUser s1 id = (.error .notFound, s1) ∧
      gormService.DeleteUser s1 id = (.error .notFound, s1) := by
  obtain ⟨v, hv, hvid⟩ := h
  have hany : s.users.any (fun v => v.id == id) = true :=
    List.any_eq_true.mpr ⟨v, hv, by simp [hvid]⟩
  refine ⟨{ s with users := s.users.filter (fun v => v.id != id) }, ?_, ?_, ?_⟩
  · simp [gormService, NewUserService, GormUserRepository,
      DefaultUserService.DeleteUser, Store.delete, hany]
  · have hfind : (s.users.filter (fun v => v.id != id)).find? (fun v => v.id == id) = none := by
      refine List.find?_eq_none.mpr (fun x hx => ?_)
      have := (List.mem_filter.mp hx).2
      simp at this
      simp [this]
    simp [gormService, NewUserService, GormUserRepository,
      DefaultUserService.GetUser, Store.getByID, hfind]
  · have hany2 : (s.users.filter (fun v => v.id != id)).any (fun v => v.id == id) = false := by
      refine List.any_eq_false.mpr (fun x hx => ?_)
      have := (List.mem_filter.mp hx).2
      simp at this
      simp [this]
    simp [gormService, NewUserService, GormUserRepository,
      DefaultUserService.DeleteUser, Store.delete, hany2]

theorem deleteUser_then_gone_witness :
    ∃ s1 : Store,
      gormService.DeleteUser { nextID := 2, users := [{ id := 1, name := "a", email := "a@x" }] } 1
        = (.ok (), s1) ∧
      gormService.GetUser s1 1 = (.error .notFound, s1) ∧
      gormService.DeleteUser s1 1 = (.error .notFound, s1) :=
  deleteUser_then_gone _ 1 ⟨{ id := 1, name := "a", email := "a@x" }, by simp, rfl⟩

/-- Claim C6: the service returns every repository error unchanged and
never recovers, retries, wraps or enriches it; `GetUser` returns exactly
the result of `GetByID` and `DeleteUser` exactly the result of `Delete`. -/
theorem service_propagates_repo_errors (σ : Type) (repo : UserRepository σ)
    (s t w : σ) (id jd kd : Nat) (name email : String)
    (e1 e2 e3 : RepoError) (s1 t1 w1 w2 : σ) (u : User)
    (hc : repo.create s { id := 0, name := name, email := email } = (.error e1, s1))
    (hg : repo.getByID t jd = (.error e2, t1))
    (hr : repo.getByID w kd = (.ok u, w1))
    (hu : repo.update w1 { u with name := name, email := email } = (.error e3, w2)) :
    (NewUserService repo).GetUser s id = repo.getByID s id ∧
    (NewUserService repo).DeleteUser s id = repo.delete s id ∧
    (NewUserService repo).CreateUser s name email = (.error e1, s1) ∧
    (NewUserService repo).UpdateUser t jd name email = (.error e2, t1) ∧
    (NewUserService repo).UpdateUser w kd name email = (.error e3, w2) := by
  refine ⟨rfl, rfl, ?_, ?_, ?_⟩
  · simp [NewUserService, DefaultUserService.CreateUser, hc, Except.map]
  · simp [NewUserService, DefaultUserService.UpdateUser, hg]
  · simp [NewUserService, DefaultUserService.UpdateUser, hr, hu]

theorem service_propagates_repo_errors_witness :
    (NewUserService GormUserRepository).UpdateUser
      { nextID := 3, users := [{ id := 1, name := "b", email := "b@x" },
                               { id := 2, name := "c", email := "a@x" }] }
      1 "n" "a@x"
      = (.error .conflict,
         { nextID := 3, users := [{ id := 1, name := "b", email := "b@x" },
                                  { id := 2, name := "c", email := "a@x" }] }) :=
  (service_propagates_repo_errors Store GormUserRepository
    { nextID := 2, users := [{ id := 1, name := "z", email := "a@x" }] }
    Store.empty
    { nextID := 3, users := [{ id := 1, name := "b", email := "b@x" },
                             { id := 2, name := "c", email := "a@x" }] }
    1 5 1 "n" "a@x" .conflict .notFound .conflict
    { nextID := 2, users := [{ id := 1, name := "z", email := "a@x" }] }
    Store.empty
    { nextID := 3, users := [{ id := 1, name := "b", email := "b@x" },
                             { id := 2, name := "c", email := "a@x" }] }
    { nextID := 3, users := [{ id := 1, name := "b", email := "b@x" },
                             { id := 2, name := "c", email := "a@x" }] }
    { id := 1, name := "b", email := "b@x" }
    (by rfl) (by rfl) (by rfl) (by rfl)).2.2.2.2

end Claims

theorem find?_map_replace (l : List User) (u : User) (i : Nat) (hui : u.id = i)
    (h : l.any (fun v => v.id == i) = true) :
    (l.map (fun v => if v.id == i then u else v)).find? (fun v => v.id == i) = some u := by
  induction l with
  | nil => simp at h
  | cons x xs ih =>
    by_cases hx : x.id = i
    · have hhead : (if x.id == i then u else x) = u := by simp [hx]
      rw [List.map_cons, hhead, List.find?_cons_of_pos _ (by simp [hui])]
    · have hx2 : (x.id == i) = false := by simp [hx]
      simp only [List.any_cons, hx2, Bool.false_or] at h
      have hhead : (if x.id == i then u else x) = x := by simp [hx2]
      rw [List.map_cons, hhead, List.find?_cons_of_neg _ (by simp [hx2])]
      exact ih h

/-- Claim C1: creating a user with a fresh email succeeds, and `GetUser`
on the identifier the store assigned returns a user with exactly the
given name and email. -/
theorem createUser_then_getUser (s : Store) (name email : String)
    (hwf : s.WF) (hfree : ∀ v ∈ s.users, v.email ≠ email) :
    ∃ s1 : Store,
      gormService.CreateUser s name email = (.ok (), s1) ∧
      gormService.GetUser s1 s.nextID =
        (.ok { id := s.nextID, name := name, email := email }, s1) := by
  have hany : s.users.any (fun v => v.email == email) = false :=
    List.any_eq_false.mpr (fun x hx => by simp [hfree x hx])
  refine ⟨{ nextID := s.nextID + 1,
            users := s.users ++ [{ id := s.nextID, name := name, email := email }] }, ?_, ?_⟩
  · simp [gormService, NewUserService, GormUserRepository,
      DefaultUserService.CreateUser, Store.create, hany, Except.map]
  · have hnone : s.users.find? (fun v => v.id == s.nextID) = none :=
      List.find?_eq_none.mpr (fun x hx => by
        have := hwf x hx
        simp only [beq_iff_eq]
        omega)
    simp [gormService, NewUserService, GormUserRepository,
      DefaultUserService.GetUser, Store.getByID, List.find?_append, hnone,
      List.find?]

theorem createUser_then_getUser_witness :
    ∃ s1 : Store,
      gormService.CreateUser Store.empty "John Doe" "john@example.com" = (.ok (), s1) ∧
      gormService.GetUser s1 1 =
        (.ok { id := 1, name := "John Doe", email := "john@example.com" }, s1) :=
  createUser_then_getUser Store.empty "John Doe" "john@example.com"
    (by intro u hu; simp [Store.empty] at hu)
    (by intro u hu; simp [Store.empty] at hu)

/-- Claim C4: updating an existing identifier with a non-colliding new
email succeeds, and `GetUser` afterwards returns a user carrying the new
name and email under the same identifier. -/
theorem updateUser_then_getUser (s : Store) (id : Nat) (u0 : User)
    (newName newEmail : String)
    (hread : s.users.find? (fun v => v.id == id) = some u0)
    (hnc : ∀ v ∈ s.users, v.email = newEmail → v.id = id) :
    ∃ s1 : Store,
      gormService.UpdateUser s id newName newEmail = (.ok (), s1) ∧
      gormService.GetUser s1 id =
        (.ok { id := id, name := newName, email := newEmail }, s1) := by
  have hid : u0.id = id := by
    have := List.find?_some hread
    simpa using this
  subst hid
  have hmem : u0 ∈ s.users := List.mem_of_find?_eq_some hread
  have hanyid : s.users.any (fun v => v.id == u0.id) = true :=
    List.any_eq_true.mpr ⟨u0, hmem, by simp⟩
  have hconf : s.users.any (fun v => v.email == newEmail && v.id != u0.id) = false := by
    refine List.any_eq_false.mpr (fun x hx => ?_)
    simp only [Bool.and_eq_true, beq_iff_eq, bne_iff_ne, ne_eq, not_and]
    intro hxe
    simp [hnc x hx hxe]
  have hrepl := find?_map_replace s.users { u0 with name := newName, email := newEmail }
    u0.id rfl hanyid
  refine ⟨⟨s.nextID, s.users.map (fun v => if v.id == u0.id then { u0 with name := newName, email := newEmail } else v)⟩, ?_, ?_⟩
  · simp [gormService, NewUserService, GormUserRepository,
      DefaultUserService.UpdateUser, Store.getByID, hread, Store.update,
      hanyid, hconf]
  · simp only [gormService, NewUserService, GormUserRepository,
      DefaultUserService.GetUser, Store.getByID, hrepl]

theorem updateUser_then_getUser_witness :
    ∃ s1 : Store,
      gormService.UpdateUser { nextID := 2, users := [{ id := 1, name := "a", email := "a@x" }] }
        1 "b" "b@x" = (.ok (), s1) ∧
      gormService.GetUser s1 1 = (.ok { id := 1, name := "b", email := "b@x" }, s1) :=
  updateUser_then_getUser _ 1 { id := 1, name := "a", email := "a@x" } "b" "b@x"
    (by rfl)
    (by intro v hv hve; simp at hv; simp [hv] at hve)

/-- Claim C7: for every pair of strings, `CreateUser` builds a `User`
whose name and email are exactly the arguments and whose identifier is
zero, performs no validation, passes exactly that value to
`Repository.Create` as its only repository call, and returns the result
of `Create` (success or the very error `Create` returned). -/
theorem createUser_constructs_and_delegates (σ : Type) (repo : UserRepository σ)
    (s : σ) (name email : String) :
    (NewUserService repo).CreateUserCalls s name email =
      (((repo.create s { id := 0, name := name, email := email }).1.map fun _ => (),
        (repo.create s { id := 0, name := name, email := email }).2),
       [RepoCall.createCall { id := 0, name := name, email := email }]) ∧
    ({ id := 0, name := name, email := email } : User).id = 0 ∧
    (∀ e s1, repo.create s { id := 0, name := name, email := email } = (.error e, s1) →
      (NewUserService repo).CreateUser s name email = (.error e, s1)) ∧
    (∀ u s1, repo.create s { id := 0, name := name, email := email } = (.ok u, s1) →
      (NewUserService repo).CreateUser s name email = (.ok (), s1)) := by
  refine ⟨rfl, rfl, ?_, ?_⟩
  · intro e s1 h
    simp [NewUserService, DefaultUserService.CreateUser, h, Except.map]
  · intro u s1 h
    simp [NewUserService, DefaultUserService.CreateUser, h, Except.map]

theorem createUser_constructs_and_delegates_witness :
    (NewUserService GormUserRepository).CreateUser Store.empty "" "" =
      (.ok (), { nextID := 2, users := [{ id := 1, name := "", email := "" }] }) :=
  (createUser_constructs_and_delegates Store GormUserRepository Store.empty "" "").2.2.2
    { id := 1, name := "", email := "" }
    { nextID := 2, users := [{ id := 1, name := "", email := "" }] }
    (by rfl)

/-- Claim C8: `UpdateUser` first calls `GetByID`; when the read fails it
returns the error without any further repository call (on the modelled
store a failed read is exactly `NotFoundError` with the store untouched);
when the read succeeds it calls `Update` on the read copy with `name` and
`email` overwritten and returns whatever `Update` returns, so a
`NotFoundError` from the write step is propagated, not masked. -/
theorem updateUser_read_modify_write (σ : Type) (repo : UserRepository σ)
    (s : σ) (id : Nat) (name email : String) :
    (∀ e s1, repo.getByID s id = (.error e, s1) →
      (NewUserService repo).UpdateUserCalls s id name email =
        ((.error e, s1), [RepoCall.getCall id])) ∧
    (∀ u s1, repo.getByID s id = (.ok u, s1) →
      (NewUserService repo).UpdateUserCalls s id name email =
        (repo.update s1 { u with name := name, email := email },
         [RepoCall.getCall id, RepoCall.updateCall { u with name := name, email := email }])) ∧
    (∀ (st st1 : Store) (e : RepoError), Store.getByID st id = (.error e, st1) →
      e = .notFound ∧ st1 = st) := by
  refine ⟨?_, ?_, ?_⟩
  · intro e s1 h
    simp [NewUserService, DefaultUserService.UpdateUserCalls, h]
  · intro u s1 h
    simp [NewUserService, DefaultUserService.UpdateUserCalls, h]
  · intro st st1 e h
    unfold Store.getByID at h
    cases hf : st.users.find? (fun v => v.id == id) with
    | some u => rw [hf] at h; exact absurd h (by simp)
    | none => rw [hf] at h; exact ⟨by injection h with h1 h2; injection h1 with h3; exact h3.symm, by injection h with h1 h2; exact h2.symm⟩

theorem updateUser_read_modify_write_witness :
    (NewUserService GormUserRepository).UpdateUserCalls Store.empty 3 "n" "e" =
      ((.error .notFound, Store.empty), [RepoCall.getCall 3]) :=
  (updateUser_read_modify_write Store GormUserRepository Store.empty 3 "n" "e").1
    .notFound Store.empty (by rfl)

/-- Claim C9: the record `UpdateUser` hands to `Repository.Update` is the
very record `GetByID` returned with only `name` and `email` replaced; in
particular its identifier is the one the read returned, never set from
the service's own argument. -/
theorem updateUser_preserves_read_id (σ : Type) (repo : UserRepository σ)
    (s s1 : σ) (id : Nat) (name email : String) (u : User)
    (h : repo.getByID s id = (.ok u, s1)) :
    ((NewUserService repo).UpdateUserCalls s id name email).2 =
      [RepoCall.getCall id, RepoCall.updateCall { u with name := name, email := email }] ∧
    ({ u with name := name, email := email } : User).id = u.id ∧
    ({ u with name := name, email := email } : User).name = name ∧
    ({ u with name := name, email := email } : User).email = email := by
  refine ⟨?_, rfl, rfl, rfl⟩
  simp [NewUserService, DefaultUserService.UpdateUserCalls, h]

theorem updateUser_preserves_read_id_witness :
    ((NewUserService GormUserRepository).UpdateUserCalls
        { nextID := 9, users := [{ id := 4, name := "a", email := "a@x" }] } 4 "n" "e").2 =
      [RepoCall.getCall 4, RepoCall.updateCall { id := 4, name := "n", email := "e" }] :=
  (updateUser_preserves_read_id Store GormUserRepository
    { nextID := 9, users := [{ id := 4, name := "a", email := "a@x" }] }
    { nextID := 9, users := [{ id := 4, name := "a", email := "a@x" }] }
    4 "n" "e" { id := 4, name := "a", email := "a@x" } (by rfl)).1

/-- Claim C10: when the read step of `UpdateUser` fails with any error,
the service returns that error, its only repository call is the read, and
no `Update` call is issued at all. -/
theorem updateUser_no_write_on_failed_read (σ : Type) (repo : UserRepository σ)
    (s s1 : σ) (id : Nat) (name email : String) (e : RepoError)
    (h : repo.getByID s id = (.error e, s1)) :
    (NewUserService repo).UpdateUser s id name email = (.error e, s1) ∧
    ((NewUserService repo).UpdateUserCalls s id name email).2 = [RepoCall.getCall id] ∧
    ∀ u : User, RepoCall.updateCall u ∉ ((NewUserService repo).UpdateUserCalls s id name email).2 := by
  refine ⟨?_, ?_, ?_⟩
  · simp [NewUserService, DefaultUserService.UpdateUser, h]
  · simp [NewUserService, DefaultUserService.UpdateUserCalls, h]
  · intro u
    simp [NewUserService, DefaultUserService.UpdateUserCalls, h]

theorem updateUser_no_write_on_failed_read_witness :
    (NewUserService GormUserRepository).UpdateUser Store.empty 5 "n" "e" =
      (.error .notFound, Store.empty) ∧
    ((NewUserService GormUserRepository).UpdateUserCalls Store.empty 5 "n" "e").2 =
      [RepoCall.getCall 5] :=
  have h := updateUser_no_write_on_failed_read Store GormUserRepository
    Store.empty Store.empty 5 "n" "e" .notFound (by rfl)
  ⟨h.1, h.2.1⟩
